import Mathlib

/-
  Shallow embedding of the VL53L1X time-of-flight sensor driver
  (VL53L1X.cpp).  Machine integers are modelled as Nat with explicit
  `% 2^w` reductions where the C arithmetic wraps.  The register map,
  session state and bus effects are modelled explicitly; register writes
  are logged as `(register, value)` events so that claims about "no
  register writes" and write contents can be stated.

  The driver's header file (register-address enum and the constants
  TimingGuard / TargetRate, plus the inline dataReady helper) is not part
  of the sources; where a definition can only come from there it is
  modelled from the specification and marked as such in its doc comment.
-/

set_option maxHeartbeats 1600000
set_option maxRecDepth 4096

namespace VL53L1X

/-! ## Fixed-point timing math (pure functions from VL53L1X.cpp) -/

/-- Decode sequence step timeout in MCLKs from register value.
Source: `VL53L1X::decodeTimeout`:
`((uint32_t)(reg_val & 0xFF) << (reg_val >> 8)) + 1` computed in
uint32 arithmetic (hence the final `% 2^32`). -/
def decodeTimeout (reg_val : Nat) : Nat :=
  (((reg_val &&& 0xFF) <<< (reg_val >>> 8)) + 1) % 4294967296

/-- The while-loop of `VL53L1X::encodeTimeout`:
`while ((ls_byte & 0xFFFFFF00) > 0) { ls_byte >>= 1; ms_byte++; }`.
The first argument is fuel; 32 iterations always reach the loop's exit
condition for a uint32 `ls_byte` (each step halves it). -/
def encLoopF : Nat → Nat → Nat → Nat × Nat
  | 0, ls_byte, ms_byte => (ls_byte, ms_byte)
  | f + 1, ls_byte, ms_byte =>
    if ls_byte &&& 0xFFFFFF00 > 0 then encLoopF f (ls_byte >>> 1) (ms_byte + 1)
    else (ls_byte, ms_byte)

/-- Encode sequence step timeout register value from timeout in MCLKs.
Source: `VL53L1X::encodeTimeout`.  Returns `(ms_byte << 8) | (ls_byte & 0xFF)`
for nonzero input, 0 for input 0.  (The uint16 return cannot wrap: the loop
runs at most 24 times for a uint32 input, so `ms_byte << 8 ≤ 24 * 256`.) -/
def encodeTimeout (timeout_mclks : Nat) : Nat :=
  if timeout_mclks > 0 then
    let p := encLoopF 32 (timeout_mclks - 1) 0
    (p.2 <<< 8) ||| (p.1 &&& 0xFF)
  else 0

/-- Convert sequence step timeout from macro periods to microseconds.
Source: `VL53L1X::timeoutMclksToMicroseconds`:
`((uint64_t)timeout_mclks * macro_period_us + 0x800) >> 12`, the uint64
intermediate truncated to the uint32 return type. -/
def timeoutMclksToMicroseconds (timeout_mclks macro_period_us : Nat) : Nat :=
  ((timeout_mclks * macro_period_us + 0x800) >>> 12) % 4294967296

/-- Convert sequence step timeout from microseconds to macro periods.
Source: `VL53L1X::timeoutMicrosecondsToMclks`:
`(((uint32_t)timeout_us << 12) + (macro_period_us >> 1)) / macro_period_us`
in uint32 arithmetic.  (C division by zero, for `macro_period_us = 0`, is
undefined behaviour; the Nat convention `_ / 0 = 0` stands in for it.) -/
def timeoutMicrosecondsToMclks (timeout_us macro_period_us : Nat) : Nat :=
  ((((timeout_us <<< 12) % 4294967296) + (macro_period_us >>> 1)) % 4294967296)
    / macro_period_us

/-- Calculate macro period in microseconds (12.12 format) with given VCSEL
period.  Source: `VL53L1X::calcMacroPeriod`; `fast_osc_frequency` is the
session field the method reads, passed here explicitly.
`pll_period_us = (1 << 30) / fast_osc_frequency` (C UB at 0; Nat gives 0);
`vcsel_period_pclks = (vcsel_period + 1) << 1` truncated to uint8;
then `2304 * pll >>= 6 *= pclks >>= 6` in uint32 arithmetic. -/
def calcMacroPeriod (fast_osc_frequency vcsel_period : Nat) : Nat :=
  let pll_period_us := 1073741824 / fast_osc_frequency
  let vcsel_period_pclks := ((vcsel_period + 1) <<< 1) % 256
  let m1 := (2304 * pll_period_us) % 4294967296
  let m2 := m1 >>> 6
  let m3 := (m2 * vcsel_period_pclks) % 4294967296
  m3 >>> 6

/-- Modelled from the spec: the fixed timing-guard constant of
`setTimingBudget` / `getTimingBudget` ("TimingGuard, a fixed constant").
Its value lives in the driver header, which is not among the sources;
the vendor-derived driver uses 4528 us. -/
def TimingGuard : Nat := 4528

/-- Modelled from the spec: the DSS target signal rate constant
("the target rate" of the DSS update; written to
DSS_CONFIG__TARGET_TOTAL_RATE_MCPS during initialization).  Its value
lives in the driver header, which is not among the sources; the
vendor-derived driver uses 0x0A00 (9.7 fixed point, 20.0 Mcps). -/
def TargetRate : Nat := 0x0A00

/-! ## Register map, session state and bus-effect model

The named device registers touched by the modelled operations.  The
numeric addresses live in the driver header (absent from the sources);
all the modelled behaviour needs is that distinct named registers are
distinct storage cells, which holds for the real byte-addressed map
(no two of these registers overlap).  Each cell stores the full value
of its register (8-, 16- or 32-bit), masked at write time. -/

inductive Reg where
  | SOFT_RESET
  | I2C_SLAVE__DEVICE_ADDRESS
  | VHV_CONFIG__TIMEOUT_MACROP_LOOP_BOUND
  | VHV_CONFIG__INIT
  | ALGO__PART_TO_PART_RANGE_OFFSET_MM
  | MM_CONFIG__OUTER_OFFSET_MM
  | DSS_CONFIG__TARGET_TOTAL_RATE_MCPS
  | PAD_I2C_HV__EXTSUP_CONFIG
  | GPIO__TIO_HV_STATUS
  | SIGMA_ESTIMATOR__EFFECTIVE_PULSE_WIDTH_NS
  | SIGMA_ESTIMATOR__EFFECTIVE_AMBIENT_WIDTH_NS
  | ALGO__CROSSTALK_COMPENSATION_VALID_HEIGHT_MM
  | ALGO__RANGE_IGNORE_VALID_HEIGHT_MM
  | ALGO__RANGE_MIN_CLIP
  | ALGO__CONSISTENCY_CHECK__TOLERANCE
  | CAL_CONFIG__VCSEL_START
  | PHASECAL_CONFIG__TIMEOUT_MACROP
  | PHASECAL_CONFIG__OVERRIDE
  | DSS_CONFIG__ROI_MODE_CONTROL
  | SYSTEM__THRESH_RATE_HIGH
  | SYSTEM__THRESH_RATE_LOW
  | DSS_CONFIG__MANUAL_EFFECTIVE_SPADS_SELECT
  | DSS_CONFIG__APERTURE_ATTENUATION
  | MM_CONFIG__TIMEOUT_MACROP_A
  | MM_CONFIG__TIMEOUT_MACROP_B
  | RANGE_CONFIG__TIMEOUT_MACROP_A
  | RANGE_CONFIG__VCSEL_PERIOD_A
  | RANGE_CONFIG__TIMEOUT_MACROP_B
  | RANGE_CONFIG__VCSEL_PERIOD_B
  | RANGE_CONFIG__SIGMA_THRESH
  | RANGE_CONFIG__MIN_COUNT_RATE_RTN_LIMIT_MCPS
  | RANGE_CONFIG__VALID_PHASE_HIGH
  | SYSTEM__INTERMEASUREMENT_PERIOD
  | SYSTEM__GROUPED_PARAMETER_HOLD_0
  | SYSTEM__SEED_CONFIG
  | SD_CONFIG__WOI_SD0
  | SD_CONFIG__WOI_SD1
  | SD_CONFIG__INITIAL_PHASE_SD0
  | SD_CONFIG__INITIAL_PHASE_SD1
  | SYSTEM__GROUPED_PARAMETER_HOLD_1
  | SD_CONFIG__QUANTIFIER
  | ROI_CONFIG__USER_ROI_CENTRE_SPAD
  | ROI_CONFIG__USER_ROI_REQUESTED_GLOBAL_XY_SIZE
  | SYSTEM__SEQUENCE_CONFIG
  | SYSTEM__GROUPED_PARAMETER_HOLD
  | SYSTEM__INTERRUPT_CLEAR
  | SYSTEM__MODE_START
  | RESULT__RANGE_STATUS
  | PHASECAL_RESULT__VCSEL_START
  | RESULT__OSC_CALIBRATE_VAL
  | OSC_MEASURED__FAST_OSC__FREQUENCY
  | FIRMWARE__SYSTEM_STATUS
  | IDENTIFICATION__MODEL_ID
  deriving DecidableEq, Repr

/-- Semantic range status enumeration (driver header `RangeStatus`). -/
inductive RangeStatus where
  | RangeValid
  | SigmaFail
  | SignalFail
  | RangeValidMinRangeClipped
  | OutOfBoundsFail
  | HardwareFail
  | RangeValidNoWrapCheckFail
  | WrapTargetFail
  | XtalkSignalFail
  | SynchronizationInt
  | MinRangeFail
  | None
  deriving DecidableEq, Repr

/-- Distance mode enumeration (driver header `DistanceMode`). -/
inductive DistanceMode where
  | Short
  | Medium
  | Long
  | Unknown
  deriving DecidableEq, Repr

/-- The fields of the driver's `ResultBuffer` that `readResults` fills in
(the discarded bytes of the 17-byte block are not stored). -/
structure Results where
  range_status : Nat
  stream_count : Nat
  dss_actual_effective_spads_sd0 : Nat
  ambient_count_rate_mcps_sd0 : Nat
  final_crosstalk_corrected_range_mm_sd0 : Nat
  peak_signal_count_rate_crosstalk_corrected_mcps_sd0 : Nat
  deriving DecidableEq, Repr

/-- The driver's `RangingData` output.  The two float fields
(peak/ambient count rate in MCPS) are produced by float conversion
(countRateFixedToFloat) and are not modelled (no claim concerns them). -/
structure RangingData where
  range_mm : Nat
  range_status : RangeStatus
  deriving DecidableEq, Repr

/-- The mutable session state of one VL53L1X driver instance, together
with the device-side register store and the raw result block the device
currently presents (the 17 bytes a `readResults` transaction would
fetch). -/
structure State where
  regs : Reg → Nat
  address : Nat
  did_timeout : Bool
  calibrated : Bool
  saved_vhv_init : Nat
  saved_vhv_timeout : Nat
  distance_mode : DistanceMode
  fast_osc_frequency : Nat
  osc_calibrate_val : Nat
  results : Results
  ranging_data : RangingData
  device_block : Fin 17 → Nat

/-- A log of register writes: `(register, value written)`. -/
abbrev Writes := List (Reg × Nat)

/-- Point update of the register store. -/
def setReg (s : Reg → Nat) (r : Reg) (v : Nat) : Reg → Nat :=
  fun r' => if r' = r then v else s r'

/-- 8-bit register read (`VL53L1X::readReg`). -/
def rd8 (st : State) (r : Reg) : Nat := st.regs r % 256

/-- 16-bit register read (`VL53L1X::readReg16Bit`). -/
def rd16 (st : State) (r : Reg) : Nat := st.regs r % 65536

/-- 8-bit register write (`VL53L1X::writeReg`): stores the value
truncated to a byte and logs the write event. -/
def wr8 (st : State) (r : Reg) (v : Nat) : State × Writes :=
  ({ st with regs := setReg st.regs r (v % 256) }, [(r, v % 256)])

/-- 16-bit register write (`VL53L1X::writeReg16Bit`). -/
def wr16 (st : State) (r : Reg) (v : Nat) : State × Writes :=
  ({ st with regs := setReg st.regs r (v % 65536) }, [(r, v % 65536)])

/-- 32-bit register write (`VL53L1X::writeReg32Bit`). -/
def wr32 (st : State) (r : Reg) (v : Nat) : State × Writes :=
  ({ st with regs := setReg st.regs r (v % 4294967296) }, [(r, v % 4294967296)])

/-- Apply a sequence of 8-bit register writes in order
(used for the fixed per-distance-mode write tables). -/
def wrMany (st : State) : List (Reg × Nat) → State × Writes
  | [] => (st, [])
  | (r, v) :: rest =>
    let p := wr8 st r v
    let q := wrMany p.1 rest
    (q.1, p.2 ++ q.2)

/-! ## Result decoder -/

/-- Parse the 17-byte raw result block exactly as `VL53L1X::readResults`
consumes it byte by byte: byte 0 = range_status, byte 1 = report_status
(discarded), byte 2 = stream_count, bytes 3-4 = effective SPAD count,
bytes 5-6 = peak signal rate (discarded), bytes 7-8 = ambient rate,
bytes 9-10 = sigma (discarded), bytes 11-12 = phase (discarded),
bytes 13-14 = final crosstalk-corrected range, bytes 15-16 =
crosstalk-corrected peak signal rate.  Each bus read yields a byte. -/
def parseResults (b : Fin 17 → Nat) : Results where
  range_status := b 0 % 256
  stream_count := b 2 % 256
  dss_actual_effective_spads_sd0 := (b 3 % 256) * 256 + b 4 % 256
  ambient_count_rate_mcps_sd0 := (b 7 % 256) * 256 + b 8 % 256
  final_crosstalk_corrected_range_mm_sd0 := (b 13 % 256) * 256 + b 14 % 256
  peak_signal_count_rate_crosstalk_corrected_mcps_sd0 := (b 15 % 256) * 256 + b 16 % 256

/-- The `switch (results.range_status)` of `VL53L1X::getRangingData`
("mostly based on ConvertStatusLite()"), written as the equivalent
sequential comparison chain, in source case order with the grouped
cases 17/2/1/3 as one disjunction. -/
def convertStatus (code stream_count : Nat) : RangeStatus :=
  if code = 17 ∨ code = 2 ∨ code = 1 ∨ code = 3 then .HardwareFail
  else if code = 13 then .MinRangeFail
  else if code = 18 then .SynchronizationInt
  else if code = 5 then .OutOfBoundsFail
  else if code = 4 then .SignalFail
  else if code = 6 then .SigmaFail
  else if code = 7 then .WrapTargetFail
  else if code = 12 then .XtalkSignalFail
  else if code = 8 then .RangeValidMinRangeClipped
  else if code = 9 then
    (if stream_count = 0 then .RangeValidNoWrapCheckFail else .RangeValid)
  else .None

/-- `VL53L1X::getRangingData` as a pure function of the raw result
buffer: applies the gain correction
`range_mm = ((uint32_t)range * 2011 + 0x0400) / 0x0800` (stored in a
uint16 field, hence the `% 65536`; the quotient is at most 64351 so the
mask never truncates) and maps the raw status through the status switch. -/
def getRangingData (r : Results) : RangingData where
  range_mm :=
    ((r.final_crosstalk_corrected_range_mm_sd0 % 65536) * 2011 + 0x0400) / 0x0800 % 65536
  range_status := convertStatus (r.range_status % 256) (r.stream_count % 256)

/-! ## Dynamic SPAD selection -/

/-- Division which records a would-be division by zero as `none`
(C integer division by zero is undefined behaviour). -/
def divChk (a b : Nat) : Option Nat :=
  if b = 0 then none else some (a / b)

/-- The "total rate per spad" intermediate of `VL53L1X::updateDSS`:
`clip16(peak + ambient) << 16`, then divided by the SPAD count (the
division is reached in the source only under the `spadCount != 0`
guard). -/
def totalRatePerSpad (r : Results) : Nat :=
  let t0 := r.peak_signal_count_rate_crosstalk_corrected_mcps_sd0 % 65536
            + r.ambient_count_rate_mcps_sd0 % 65536
  let t1 := if t0 > 0xFFFF then 0xFFFF else t0
  (t1 <<< 16) / (r.dss_actual_effective_spads_sd0 % 65536)

/-- `VL53L1X::updateDSS`.  Returns the register writes it performs;
`none` would mean a division by zero was attempted (every division in
the source is guarded, which claim C8's theorem makes precise).
`targetRate` is the `TargetRate` header constant, kept as a parameter. -/
def updateDSS (targetRate : Nat) (r : Results) : Option Writes :=
  let spadCount := r.dss_actual_effective_spads_sd0 % 65536
  if spadCount ≠ 0 then do
    let t0 := r.peak_signal_count_rate_crosstalk_corrected_mcps_sd0 % 65536
              + r.ambient_count_rate_mcps_sd0 % 65536
    let t1 := if t0 > 0xFFFF then 0xFFFF else t0
    let tps ← divChk (t1 <<< 16) spadCount
    if tps ≠ 0 then do
      let req ← divChk ((targetRate <<< 16) % 4294967296) tps
      let req2 := if req > 0xFFFF then 0xFFFF else req
      some [(Reg.DSS_CONFIG__MANUAL_EFFECTIVE_SPADS_SELECT, req2)]
    else
      some [(Reg.DSS_CONFIG__MANUAL_EFFECTIVE_SPADS_SELECT, 0x8000)]
  else
    some [(Reg.DSS_CONFIG__MANUAL_EFFECTIVE_SPADS_SELECT, 0x8000)]

/-- Apply a list of 16-bit register writes to the state (used to apply
`updateDSS`'s writes, which all go through `writeReg16Bit`). -/
def applyWrites16 (st : State) : Writes → State × Writes
  | [] => (st, [])
  | (r, v) :: rest =>
    let p := wr16 st r v
    let q := applyWrites16 p.1 rest
    (q.1, p.2 ++ q.2)

/-! ## ROI and address configuration -/

/-- The size byte `(height - 1) << 4 | (width - 1)` of
`VL53L1X::setROISize`, computed as C does: the uint8 operands are
promoted to int (two's complement, modelled as Nat arithmetic mod 2^32,
which is exact for these nonnegative-or-minus-one operands), combined,
and the result truncated to the uint8 register value. -/
def roiSizeByte (width height : Nat) : Nat :=
  let hm := (height % 256 + 4294967295) % 4294967296
  let wm := (width % 256 + 4294967295) % 4294967296
  (((hm <<< 4) % 4294967296) ||| wm) % 256

/-- `VL53L1X::setROISize`: clamps width and height to at most 16, forces
the ROI centre SPAD to 199 when either (clamped) dimension exceeds 10,
then writes the packed size byte.  Returns the write log. -/
def setROISize (width height : Nat) : Writes :=
  let w := if width % 256 > 16 then 16 else width % 256
  let h := if height % 256 > 16 then 16 else height % 256
  (if w > 10 ∨ h > 10 then [(Reg.ROI_CONFIG__USER_ROI_CENTRE_SPAD, 199)] else [])
    ++ [(Reg.ROI_CONFIG__USER_ROI_REQUESTED_GLOBAL_XY_SIZE, roiSizeByte w h)]

/-- `VL53L1X::setAddress`: writes the low 7 bits of the new address to
the device's address register, then stores the full (uint8) new address
as the session's bus address. -/
def setAddress (st : State) (new_addr : Nat) : State × Writes :=
  let p := wr8 st Reg.I2C_SLAVE__DEVICE_ADDRESS ((new_addr % 256) &&& 0x7F)
  ({ p.1 with address := new_addr % 256 }, p.2)

/-! ## Timing budget and distance mode -/

/-- `VL53L1X::getMeasurementTimingBudget`: decodes channel A's range
timeout with the macro period of the currently programmed VCSEL period A
and returns `2 * range_config_timeout_us + TimingGuard` (uint32). -/
def getMeasurementTimingBudget (st : State) : Nat :=
  let macro_period_us :=
    calcMacroPeriod st.fast_osc_frequency (rd8 st Reg.RANGE_CONFIG__VCSEL_PERIOD_A)
  let range_config_timeout_us :=
    timeoutMclksToMicroseconds
      (decodeTimeout (rd16 st Reg.RANGE_CONFIG__TIMEOUT_MACROP_A)) macro_period_us
  (2 * range_config_timeout_us + TimingGuard) % 4294967296

/-- `VL53L1X::setMeasurementTimingBudget`: rejects (returning false with
no writes) a budget at most `TimingGuard`, or one whose remainder after
subtracting the guard exceeds 1,100,000 us; otherwise halves the
remainder into the per-channel range timeout, programs the phasecal
timeout (clamped to 0xFF) and the MM and range timeouts of both
channels, and returns true. -/
def setMeasurementTimingBudget (st : State) (budget_us : Nat) :
    Bool × State × Writes :=
  if budget_us ≤ TimingGuard then (false, st, [])
  else
    let range0 := budget_us - TimingGuard
    if range0 > 1100000 then (false, st, [])
    else
      let range_config_timeout_us := range0 / 2
      let macro_period_us_a :=
        calcMacroPeriod st.fast_osc_frequency (rd8 st Reg.RANGE_CONFIG__VCSEL_PERIOD_A)
      let ph0 := timeoutMicrosecondsToMclks 1000 macro_period_us_a
      let phasecal_timeout_mclks := if ph0 > 0xFF then 0xFF else ph0
      let p1 := wr8 st Reg.PHASECAL_CONFIG__TIMEOUT_MACROP phasecal_timeout_mclks
      let p2 := wr16 p1.1 Reg.MM_CONFIG__TIMEOUT_MACROP_A
        (encodeTimeout (timeoutMicrosecondsToMclks 1 macro_period_us_a))
      let p3 := wr16 p2.1 Reg.RANGE_CONFIG__TIMEOUT_MACROP_A
        (encodeTimeout (timeoutMicrosecondsToMclks range_config_timeout_us macro_period_us_a))
      let macro_period_us_b :=
        calcMacroPeriod p3.1.fast_osc_frequency (rd8 p3.1 Reg.RANGE_CONFIG__VCSEL_PERIOD_B)
      let p4 := wr16 p3.1 Reg.MM_CONFIG__TIMEOUT_MACROP_B
        (encodeTimeout (timeoutMicrosecondsToMclks 1 macro_period_us_b))
      let p5 := wr16 p4.1 Reg.RANGE_CONFIG__TIMEOUT_MACROP_B
        (encodeTimeout (timeoutMicrosecondsToMclks range_config_timeout_us macro_period_us_b))
      (true, p5.1, p1.2 ++ p2.2 ++ p3.2 ++ p4.2 ++ p5.2)

/-- The fixed per-mode timing/dynamic configuration write table of
`VL53L1X::setDistanceMode` (the bodies of its three switch cases, in
source order).  `Unknown` has no table (the switch's default returns). -/
def distanceModeWrites : DistanceMode → List (Reg × Nat)
  | .Short =>
    [(Reg.RANGE_CONFIG__VCSEL_PERIOD_A, 0x07),
     (Reg.RANGE_CONFIG__VCSEL_PERIOD_B, 0x05),
     (Reg.RANGE_CONFIG__VALID_PHASE_HIGH, 0x38),
     (Reg.SD_CONFIG__WOI_SD0, 0x07),
     (Reg.SD_CONFIG__WOI_SD1, 0x05),
     (Reg.SD_CONFIG__INITIAL_PHASE_SD0, 6),
     (Reg.SD_CONFIG__INITIAL_PHASE_SD1, 6)]
  | .Medium =>
    [(Reg.RANGE_CONFIG__VCSEL_PERIOD_A, 0x0B),
     (Reg.RANGE_CONFIG__VCSEL_PERIOD_B, 0x09),
     (Reg.RANGE_CONFIG__VALID_PHASE_HIGH, 0x78),
     (Reg.SD_CONFIG__WOI_SD0, 0x0B),
     (Reg.SD_CONFIG__WOI_SD1, 0x09),
     (Reg.SD_CONFIG__INITIAL_PHASE_SD0, 10),
     (Reg.SD_CONFIG__INITIAL_PHASE_SD1, 10)]
  | .Long =>
    [(Reg.RANGE_CONFIG__VCSEL_PERIOD_A, 0x0F),
     (Reg.RANGE_CONFIG__VCSEL_PERIOD_B, 0x0D),
     (Reg.RANGE_CONFIG__VALID_PHASE_HIGH, 0xB8),
     (Reg.SD_CONFIG__WOI_SD0, 0x0F),
     (Reg.SD_CONFIG__WOI_SD1, 0x0D),
     (Reg.SD_CONFIG__INITIAL_PHASE_SD0, 14),
     (Reg.SD_CONFIG__INITIAL_PHASE_SD1, 14)]
  | .Unknown => []

/-- `VL53L1X::setDistanceMode`: saves the current timing budget, writes
the mode's fixed register table, reapplies the saved budget, records the
mode, and returns true; an unrecognized mode returns false with no
writes. -/
def setDistanceMode (mode : DistanceMode) (st : State) : Bool × State × Writes :=
  let budget_us := getMeasurementTimingBudget st
  match mode with
  | .Unknown => (false, st, [])
  | m =>
    let p := wrMany st (distanceModeWrites m)
    let q := setMeasurementTimingBudget p.1 budget_us
    (true, { q.2.1 with distance_mode := m }, p.2 ++ q.2.2)

/-! ## Measurement lifecycle -/

/-- `VL53L1X::setupManualCalibration`: snapshots the VHV init/timeout
registers into the session, disables VHV init (top bit cleared), sets
the loop bound to the tuning default, and enables the phasecal override
with the currently measured VCSEL start. -/
def setupManualCalibration (st : State) : State × Writes :=
  let svi := rd8 st Reg.VHV_CONFIG__INIT
  let svt := rd8 st Reg.VHV_CONFIG__TIMEOUT_MACROP_LOOP_BOUND
  let st0 := { st with saved_vhv_init := svi, saved_vhv_timeout := svt }
  let p1 := wr8 st0 Reg.VHV_CONFIG__INIT (svi &&& 0x7F)
  let p2 := wr8 p1.1 Reg.VHV_CONFIG__TIMEOUT_MACROP_LOOP_BOUND ((svt &&& 0x03) + (3 <<< 2))
  let p3 := wr8 p2.1 Reg.PHASECAL_CONFIG__OVERRIDE 0x01
  let p4 := wr8 p3.1 Reg.CAL_CONFIG__VCSEL_START (rd8 p3.1 Reg.PHASECAL_RESULT__VCSEL_START)
  (p4.1, p1.2 ++ p2.2 ++ p3.2 ++ p4.2)

/-- `VL53L1X::readResults`: one 17-byte read transaction starting at
RESULT__RANGE_STATUS; fills the session's result buffer from the block
the device presents.  No register writes. -/
def readResults (st : State) : State :=
  { st with results := parseResults st.device_block }

/-- Modelled from the spec: the data-ready poll ("polls a data-ready bit"
of a status register).  The inline helper lives in the driver header,
which is not among the sources; a byte read from GPIO__TIO_HV_STATUS is
ready when its data-ready bit is set. -/
def dataReadyByte (b : Nat) : Bool := b % 256 &&& 0x01 = 0x01

/-- The first-read calibration step of `VL53L1X::read`:
`if (!calibrated) { setupManualCalibration(); calibrated = true; }`. -/
def calibStep (st : State) : State × Writes :=
  if ¬ st.calibrated then
    let p := setupManualCalibration st
    ({ p.1 with calibrated := true }, p.2)
  else (st, [])

/-- The DSS update as `read` runs it: apply `updateDSS`'s writes to the
state (the `none` arm is unreachable — `updateDSS` never divides by
zero, which claim C8's theorem proves). -/
def dssStep (st : State) : State × Writes :=
  match updateDSS TargetRate st.results with
  | some ws => applyWrites16 st ws
  | none => (st, [])

/-- The body of `VL53L1X::read` after its blocking wait (the part both
the blocking and the non-blocking call run): fetch results, first-read
calibration setup, DSS update, ranging-data decode, interrupt clear,
return of the corrected range. -/
def readTail (st : State) : Nat × State × Writes :=
  let s1 := readResults st
  let c := calibStep s1
  let d := dssStep c.1
  let s4 := { d.1 with ranging_data := getRangingData d.1.results }
  let p5 := wr8 s4 Reg.SYSTEM__INTERRUPT_CLEAR 0x01
  (s4.ranging_data.range_mm, p5.1, c.2 ++ d.2 ++ p5.2)

/-- The blocking wait of `VL53L1X::read`: repeatedly read the status
byte and test data-ready; on each not-ready read, a timeout check may
expire.  The trace supplies, per poll iteration, the byte the bus
returns and whether the io timeout has expired at that point;
`some true` = data became ready, `some false` = timeout,
`none` = the trace ran out while the loop was still spinning
(the unbounded-blocking case). -/
def readPoll : List (Nat × Bool) → Option Bool
  | [] => none
  | (b, expired) :: rest =>
    if dataReadyByte b then some true
    else if expired then some false
    else readPoll rest

/-- `VL53L1X::read`: when blocking, wait for data-ready with timeout
(a timeout sets the sticky flag and returns 0); then run the read body.
When not blocking, the body runs immediately — the source has no
data-ready check on the non-blocking path.  `none` models the blocking
loop never returning. -/
def read (blocking : Bool) (trace : List (Nat × Bool)) (st : State) :
    Option (Nat × State × Writes) :=
  if blocking then
    match readPoll trace with
    | none => none
    | some false => some (0, { st with did_timeout := true }, [])
    | some true => some (readTail st)
  else
    some (readTail st)

/-! ## Initialization -/

/-- The boot-completion poll of `VL53L1X::init`
(`while ((readReg(FIRMWARE__SYSTEM_STATUS) & 0x01) == 0 || last_status != 0)`).
The trace supplies, per iteration, the firmware status byte read, the
bus status (`last_status`) after that read, and whether the io timeout
has expired at that point.  `some true` = boot completed, `some false` =
timeout (init returns 2), `none` = the trace ran out while the loop was
still spinning. -/
def bootPoll : List (Nat × Nat × Bool) → Option Bool
  | [] => none
  | (fw, status, expired) :: rest =>
    if fw % 256 &&& 0x01 = 0 ∨ status ≠ 0 then
      if expired then some false else bootPoll rest
    else some true

/-- The tail of `VL53L1X::init` after boot completion: optional 2V8
switch, oscillator-constant capture, the fixed static/general/timing/
dynamic configuration block, default distance mode Long, default timing
budget 50000 us, and the part-to-part offset scaling.  Always returns
the success code 0. -/
def initTail (st : State) (io_2v8 : Bool) : Option Nat × State × Writes :=
  let a := if io_2v8 then
      wr8 st Reg.PAD_I2C_HV__EXTSUP_CONFIG (rd8 st Reg.PAD_I2C_HV__EXTSUP_CONFIG ||| 0x01)
    else (st, [])
  let s1 := { a.1 with
    fast_osc_frequency := rd16 a.1 Reg.OSC_MEASURED__FAST_OSC__FREQUENCY,
    osc_calibrate_val := rd16 a.1 Reg.RESULT__OSC_CALIBRATE_VAL }
  let b1 := wr16 s1 Reg.DSS_CONFIG__TARGET_TOTAL_RATE_MCPS TargetRate
  let b2 := wr8 b1.1 Reg.GPIO__TIO_HV_STATUS 0x02
  let b3 := wr8 b2.1 Reg.SIGMA_ESTIMATOR__EFFECTIVE_PULSE_WIDTH_NS 8
  let b4 := wr8 b3.1 Reg.SIGMA_ESTIMATOR__EFFECTIVE_AMBIENT_WIDTH_NS 16
  let b5 := wr8 b4.1 Reg.ALGO__CROSSTALK_COMPENSATION_VALID_HEIGHT_MM 0x01
  let b6 := wr8 b5.1 Reg.ALGO__RANGE_IGNORE_VALID_HEIGHT_MM 0xFF
  let b7 := wr8 b6.1 Reg.ALGO__RANGE_MIN_CLIP 0
  let b8 := wr8 b7.1 Reg.ALGO__CONSISTENCY_CHECK__TOLERANCE 2
  let b9 := wr16 b8.1 Reg.SYSTEM__THRESH_RATE_HIGH 0x0000
  let b10 := wr16 b9.1 Reg.SYSTEM__THRESH_RATE_LOW 0x0000
  let b11 := wr8 b10.1 Reg.DSS_CONFIG__APERTURE_ATTENUATION 0x38
  let b12 := wr16 b11.1 Reg.RANGE_CONFIG__SIGMA_THRESH 360
  let b13 := wr16 b12.1 Reg.RANGE_CONFIG__MIN_COUNT_RATE_RTN_LIMIT_MCPS 192
  let b14 := wr8 b13.1 Reg.SYSTEM__GROUPED_PARAMETER_HOLD_0 0x01
  let b15 := wr8 b14.1 Reg.SYSTEM__GROUPED_PARAMETER_HOLD_1 0x01
  let b16 := wr8 b15.1 Reg.SD_CONFIG__QUANTIFIER 2
  let b17 := wr8 b16.1 Reg.SYSTEM__GROUPED_PARAMETER_HOLD 0x00
  let b18 := wr8 b17.1 Reg.SYSTEM__SEED_CONFIG 1
  let b19 := wr8 b18.1 Reg.SYSTEM__SEQUENCE_CONFIG 0x8B
  let b20 := wr16 b19.1 Reg.DSS_CONFIG__MANUAL_EFFECTIVE_SPADS_SELECT (200 <<< 8)
  let b21 := wr8 b20.1 Reg.DSS_CONFIG__ROI_MODE_CONTROL 2
  let c1 := setDistanceMode .Long b21.1
  let c2 := setMeasurementTimingBudget c1.2.1 50000
  let d1 := wr16 c2.2.1 Reg.ALGO__PART_TO_PART_RANGE_OFFSET_MM
    ((rd16 c2.2.1 Reg.MM_CONFIG__OUTER_OFFSET_MM) * 4)
  (some 0, d1.1,
    a.2 ++ b1.2 ++ b2.2 ++ b3.2 ++ b4.2 ++ b5.2 ++ b6.2 ++ b7.2 ++ b8.2
      ++ b9.2 ++ b10.2 ++ b11.2 ++ b12.2 ++ b13.2 ++ b14.2 ++ b15.2
      ++ b16.2 ++ b17.2 ++ b18.2 ++ b19.2 ++ b20.2 ++ b21.2
      ++ c1.2.2 ++ c2.2.2 ++ d1.2)

/-- `VL53L1X::init`: model-ID check (an unexpected id is returned
verbatim as the result), soft reset, boot-completion poll (timeout
returns 2 and sets the sticky flag), then the initialization tail.
`none` models the poll loop never returning within the trace. -/
def init (st : State) (trace : List (Nat × Nat × Bool)) (io_2v8 : Bool) :
    Option Nat × State × Writes :=
  let res := rd16 st Reg.IDENTIFICATION__MODEL_ID
  if res ≠ 0xEACC then (some res, st, [])
  else
    let p1 := wr8 st Reg.SOFT_RESET 0x00
    let p2 := wr8 p1.1 Reg.SOFT_RESET 0x01
    match bootPoll trace with
    | none => (none, p2.1, p1.2 ++ p2.2)
    | some false => (some 2, { p2.1 with did_timeout := true }, p1.2 ++ p2.2)
    | some true =>
      let t := initTail p2.1 io_2v8
      (t.1, t.2.1, p1.2 ++ p2.2 ++ t.2.2)

/-! ## Spec-side definitions and concrete fixtures for the claims -/

/-- The status lookup table exactly as the specification words it
(for comparison with the source-derived `convertStatus`): codes 1, 2, 3,
17 map to HardwareFail; 13 to MinRangeFail; 18 to SynchronizationInt;
5 to OutOfBoundsFail; 4 to SignalFail; 6 to SigmaFail; 7 to
WrapTargetFail; 12 to XtalkSignalFail; 8 to RangeValidMinRangeClipped;
9 splits on the stream count; every other code maps to None. -/
def statusTableSpec (code stream_count : Nat) : RangeStatus :=
  if code = 1 ∨ code = 2 ∨ code = 3 ∨ code = 17 then .HardwareFail
  else if code = 13 then .MinRangeFail
  else if code = 18 then .SynchronizationInt
  else if code = 5 then .OutOfBoundsFail
  else if code = 4 then .SignalFail
  else if code = 6 then .SigmaFail
  else if code = 7 then .WrapTargetFail
  else if code = 12 then .XtalkSignalFail
  else if code = 8 then .RangeValidMinRangeClipped
  else if code = 9 then
    (if stream_count = 0 then .RangeValidNoWrapCheckFail else .RangeValid)
  else .None

/-- The VCSEL period A value each recognized distance mode programs
(the first entry of its write table). -/
def vcselPeriodA : DistanceMode → Nat
  | .Short => 0x07
  | .Medium => 0x0B
  | .Long => 0x0F
  | .Unknown => 0

/-- An all-zero 17-byte raw result block. -/
def blk0 : Fin 17 → Nat := fun _ => 0

/-- A raw result block whose final crosstalk-corrected range field
(bytes 13-14) holds 2000 (= 0x07D0). -/
def blkRange2000 : Fin 17 → Nat :=
  fun i => if i = 13 then 0x07 else if i = 14 then 0xD0 else 0

/-- An example device register store: VCSEL period A programmed for the
Long preset (0x0F) and a range timeout A register of 157 (which decodes
to 158 MCLKs); every other register reads 0. -/
def exRegs : Reg → Nat := fun r =>
  if r = Reg.RANGE_CONFIG__VCSEL_PERIOD_A then 0x0F
  else if r = Reg.RANGE_CONFIG__TIMEOUT_MACROP_A then 157
  else 0

/-- An example session state over `exRegs` with a 32768 (0x8000) fast
oscillator frequency; its timing budget reads back as 50032 us. -/
def exState : State where
  regs := exRegs
  address := 0x29
  did_timeout := false
  calibrated := false
  saved_vhv_init := 0
  saved_vhv_timeout := 0
  distance_mode := DistanceMode.Long
  fast_osc_frequency := 32768
  osc_calibrate_val := 0
  results := ⟨0, 0, 0, 0, 0, 0⟩
  ranging_data := ⟨0, RangeStatus.None⟩
  device_block := blk0

/-- `exState` with calibration already done and the device presenting
`blkRange2000` (and a data-ready bit that reads 0). -/
def exStateReady : State :=
  { exState with calibrated := true, device_block := blkRange2000 }

/-- `exState` with every device register reading 5 (so the model-ID
read returns 5). -/
def exStateId5 : State := { exState with regs := fun _ => 5 }

/-- `exState` with every device register reading 0 (so the model-ID
read returns 0). -/
def exStateId0 : State := { exState with regs := fun _ => 0 }

/-! ## Claim theorems -/

/-- C1: for every 17-byte raw result block, `getRangingData` maps the
raw range-status byte to the semantic status exactly as the fixed lookup
table of the specification (`statusTableSpec`): codes 1, 2, 3, 17 to
HardwareFail; 13 to MinRangeFail; 18 to SynchronizationInt; 5 to
OutOfBoundsFail; 4 to SignalFail; 6 to SigmaFail; 7 to WrapTargetFail;
12 to XtalkSignalFail; 8 to RangeValidMinRangeClipped; 9 to
RangeValidNoWrapCheckFail when the stream count is 0 and to RangeValid
otherwise; every other raw code to None. -/
theorem getRangingData_status_table (b : Fin 17 → Nat) :
    (getRangingData (parseResults b)).range_status
      = statusTableSpec ((parseResults b).range_status)
          ((parseResults b).stream_count) := by
  have h : ∀ code sc : Nat, convertStatus code sc = statusTableSpec code sc := by
    intro code sc
    unfold convertStatus statusTableSpec
    split_ifs <;> first | rfl | omega
  have hm : ∀ x : Nat, x % 256 % 256 = x % 256 := fun x => by omega
  simp only [getRangingData, parseResults, hm, h]

/-- C2 counterexample: with the raw range field holding 2000, the
corrected distance computed by `getRangingData` is 1964, not 1965 as
the claim states (indeed (2000 * 2011 + 1024) / 2048 = 1964). -/
theorem getRangingData_gain_at_2000 :
    (parseResults blkRange2000).final_crosstalk_corrected_range_mm_sd0 = 2000
    ∧ (getRangingData (parseResults blkRange2000)).range_mm = 1964
    ∧ (getRangingData (parseResults blkRange2000)).range_mm ≠ 1965 := by
  refine ⟨rfl, rfl, ?_⟩
  decide

/-- C2 amended: the corrected distance equals
(rawRangeMm * 2011 + 1024) / 2048 (integer division, round-to-nearest)
for every raw range value; for a raw range of 2000 this equals 1964
(not 1965: the claim's arithmetic example is off by one). -/
theorem getRangingData_gain_formula :
    (∀ b : Fin 17 → Nat,
      (getRangingData (parseResults b)).range_mm
        = ((parseResults b).final_crosstalk_corrected_range_mm_sd0 * 2011 + 1024) / 2048)
    ∧ (2000 * 2011 + 1024) / 2048 = 1964 := by
  refine ⟨?_, by decide⟩
  intro b
  simp only [getRangingData, parseResults]
  have h1 : (b 13 % 256) * 256 + b 14 % 256 < 65536 := by omega
  have h2 : ((b 13 % 256) * 256 + b 14 % 256) * 2011 + 1024 < 2048 * 65536 := by omega
  rw [Nat.mod_eq_of_lt h1, Nat.mod_eq_of_lt (Nat.div_lt_of_lt_mul h2)]

/-- C5: the timeout encoding round-trips exactly on the representative
range 1 to 256 MCLKs (`decodeTimeout (encodeTimeout m) = m`), and the
sole exception is input 0, which encodes to 0 and decodes to 1. -/
theorem encode_decode_roundtrip :
    (∀ m : Nat, 1 ≤ m → m ≤ 256 → decodeTimeout (encodeTimeout m) = m)
    ∧ encodeTimeout 0 = 0 ∧ decodeTimeout 0 = 1 := by
  refine ⟨?_, by decide, by decide⟩
  have h : ∀ m : Fin 257, 1 ≤ m.val →
      decodeTimeout (encodeTimeout m.val) = m.val := by decide
  intro m h1 h2
  exact h ⟨m, by omega⟩ h1

/-- C5 witness: a concrete instance of the round-trip law at 200 MCLKs. -/
theorem encode_decode_roundtrip_witness :
    1 ≤ 200 ∧ 200 ≤ 256 ∧ decodeTimeout (encodeTimeout 200) = 200 :=
  ⟨by decide, by decide, encode_decode_roundtrip.1 200 (by decide) (by decide)⟩

/-- C8: for every target rate and every 17-byte raw result block,
`updateDSS` completes without a division by zero (it never returns the
division-by-zero marker), and whenever the effective SPAD count is 0 or
the computed total rate per SPAD is 0 it writes the fixed midpoint
fallback 0x8000 to the manual effective-SPADs register instead of
dividing. -/
theorem updateDSS_safe (targetRate : Nat) (b : Fin 17 → Nat) :
    (updateDSS targetRate (parseResults b)).isSome = true
    ∧ ((parseResults b).dss_actual_effective_spads_sd0 = 0 →
        updateDSS targetRate (parseResults b)
          = some [(Reg.DSS_CONFIG__MANUAL_EFFECTIVE_SPADS_SELECT, 0x8000)])
    ∧ ((parseResults b).dss_actual_effective_spads_sd0 ≠ 0 →
        totalRatePerSpad (parseResults b) = 0 →
        updateDSS targetRate (parseResults b)
          = some [(Reg.DSS_CONFIG__MANUAL_EFFECTIVE_SPADS_SELECT, 0x8000)]) := by
  have hdss : (parseResults b).dss_actual_effective_spads_sd0 % 65536
      = (parseResults b).dss_actual_effective_spads_sd0 := by
    simp only [parseResults]; omega
  unfold updateDSS divChk totalRatePerSpad
  rw [hdss]
  by_cases h0 : (parseResults b).dss_actual_effective_spads_sd0 = 0
  · simp [h0]
  · simp only [h0, if_neg, ite_not, if_false, ne_eq, not_false_iff, if_true]
    by_cases htps : ((if (parseResults b).peak_signal_count_rate_crosstalk_corrected_mcps_sd0 % 65536
          + (parseResults b).ambient_count_rate_mcps_sd0 % 65536 > 0xFFFF then 0xFFFF
        else (parseResults b).peak_signal_count_rate_crosstalk_corrected_mcps_sd0 % 65536
          + (parseResults b).ambient_count_rate_mcps_sd0 % 65536) <<< 16)
        / (parseResults b).dss_actual_effective_spads_sd0 = 0
    · simp [h0, htps]
    · simp [h0, htps]

/-- C8 witness: on the all-zero block the SPAD count is 0 and the
fallback midpoint 0x8000 is written. -/
theorem updateDSS_safe_witness :
    (parseResults blk0).dss_actual_effective_spads_sd0 = 0
    ∧ updateDSS TargetRate (parseResults blk0)
        = some [(Reg.DSS_CONFIG__MANUAL_EFFECTIVE_SPADS_SELECT, 0x8000)] :=
  ⟨by decide, (updateDSS_safe TargetRate blk0).2.1 (by decide)⟩

/-- C9 counterexample: `setROISize 0 3` does not clamp the width up to
1: the size register receives 0xFF (both nibbles saturated by the 8-bit
wrap-around of width - 1), not the 0x20 = (3-1)*16 + (1-1) a clamp to
the range 1..16 would produce, and no centre write occurs. -/
theorem setROISize_zero_width_no_lower_clamp :
    setROISize 0 3 = [(Reg.ROI_CONFIG__USER_ROI_REQUESTED_GLOBAL_XY_SIZE, 0xFF)]
    ∧ (0xFF : Nat) ≠ (3 - 1) * 16 + (1 - 1) := by
  exact ⟨rfl, by decide⟩

/-- C9 amended: `setROISize` clamps width and height to at most 16 (it
has no lower clamp: a width or height of 0 wraps around in the 8-bit
size-byte computation); when the clamped width or height exceeds 10 it
first forces the ROI centre to the default centered SPAD index 199; the
size byte is (height-1)*16 + (width-1) for dimensions in 1..16; and
`setROISize 20 3` programs effective size (16, 3) with centre 199. -/
theorem setROISize_clamp_and_pack :
    (∀ w h : Nat, w < 256 → h < 256 →
      setROISize w h =
        (if 10 < min w 16 ∨ 10 < min h 16
          then [(Reg.ROI_CONFIG__USER_ROI_CENTRE_SPAD, 199)] else [])
        ++ [(Reg.ROI_CONFIG__USER_ROI_REQUESTED_GLOBAL_XY_SIZE,
              roiSizeByte (min w 16) (min h 16))])
    ∧ (∀ w h : Nat, 1 ≤ w → w ≤ 16 → 1 ≤ h → h ≤ 16 →
        roiSizeByte w h = (h - 1) * 16 + (w - 1))
    ∧ setROISize 20 3 = [(Reg.ROI_CONFIG__USER_ROI_CENTRE_SPAD, 199),
        (Reg.ROI_CONFIG__USER_ROI_REQUESTED_GLOBAL_XY_SIZE, (3 - 1) * 16 + (16 - 1))] := by
  refine ⟨?_, ?_, by decide⟩
  · intro w h hw hh
    have hw2 : w % 256 = w := Nat.mod_eq_of_lt hw
    have hh2 : h % 256 = h := Nat.mod_eq_of_lt hh
    have hwm : (if w % 256 > 16 then 16 else w % 256) = min w 16 := by
      rw [hw2, Nat.min_def]; split_ifs <;> omega
    have hhm : (if h % 256 > 16 then 16 else h % 256) = min h 16 := by
      rw [hh2, Nat.min_def]; split_ifs <;> omega
    unfold setROISize
    rw [hwm, hhm]
  · have hfin : ∀ w h : Fin 17, 1 ≤ w.val → 1 ≤ h.val →
        roiSizeByte w.val h.val = (h.val - 1) * 16 + (w.val - 1) := by decide
    intro w h hw1 hw2 hh1 hh2
    exact hfin ⟨w, by omega⟩ ⟨h, by omega⟩ hw1 hh1

/-- C9 witness: a concrete in-range instance of the amended packing law,
at width 4, height 4. -/
theorem setROISize_clamp_and_pack_witness :
    1 ≤ 4 ∧ (4 : Nat) ≤ 16 ∧ roiSizeByte 4 4 = 51 :=
  ⟨by decide, by decide,
    setROISize_clamp_and_pack.2.1 4 4 (by decide) (by decide) (by decide) (by decide)⟩

/-- C10: `setAddress` writes the low 7 bits of the new address to the
device's address register but stores the unmasked address as the
session's bus address; for addresses at least 0x80 the stored and
programmed addresses differ, below 0x80 they agree. -/
theorem setAddress_mask_vs_stored (st : State) (a : Nat) (ha : a < 256) :
    (setAddress st a).2 = [(Reg.I2C_SLAVE__DEVICE_ADDRESS, a &&& 0x7F)]
    ∧ (setAddress st a).1.address = a
    ∧ (a < 128 → a &&& 0x7F = a)
    ∧ (128 ≤ a → a &&& 0x7F ≠ a) := by
  have hfin : ∀ x : Fin 256, x.val &&& 0x7F < 256
      ∧ (x.val < 128 → x.val &&& 0x7F = x.val)
      ∧ (128 ≤ x.val → x.val &&& 0x7F ≠ x.val) := by decide
  obtain ⟨hlt, hlow, hhigh⟩ := hfin ⟨a, ha⟩
  have hmod : a % 256 = a := Nat.mod_eq_of_lt ha
  refine ⟨?_, ?_, hlow, hhigh⟩
  · simp only [setAddress, wr8, hmod]
    rw [Nat.mod_eq_of_lt hlt]
  · simp only [setAddress, wr8, hmod]

/-- C10 witness: a concrete instance at address 0xD2: the device is
programmed with 0x52 while the session stores 0xD2. -/
theorem setAddress_mask_vs_stored_witness :
    (setAddress exState 0xD2).2 = [(Reg.I2C_SLAVE__DEVICE_ADDRESS, 0xD2 &&& 0x7F)]
    ∧ (setAddress exState 0xD2).1.address = 0xD2
    ∧ (128 ≤ 0xD2 → 0xD2 &&& 0x7F ≠ 0xD2) :=
  ⟨(setAddress_mask_vs_stored exState 0xD2 (by decide)).1,
   (setAddress_mask_vs_stored exState 0xD2 (by decide)).2.1,
   (setAddress_mask_vs_stored exState 0xD2 (by decide)).2.2.2⟩

/-- C4 counterexample: at budget 1,104,529 us (= TimingGuard +
1,100,001) the code rejects — returns false with no register writes —
although the claim's condition does not hold there: the budget exceeds
TimingGuard and the derived range-config timeout (budget minus guard,
then halved) is exactly 550,000, which does not exceed 550,000.  (The
source compares the un-halved remainder against 1,100,000, which differs
from the claim's halved comparison at this odd boundary value.) -/
theorem setMTB_boundary_1104529 :
    (setMeasurementTimingBudget exState 1104529).1 = false
    ∧ (setMeasurementTimingBudget exState 1104529).2.2 = []
    ∧ ¬ (1104529 ≤ TimingGuard)
    ∧ ¬ (550000 < (1104529 - TimingGuard) / 2) := by
  exact ⟨rfl, rfl, by decide, by decide⟩

/-- C4 amended: `setMeasurementTimingBudget` returns false and performs
no register writes exactly when the budget is at most TimingGuard or the
remainder after subtracting the guard exceeds 1,100,000 us (equivalently,
when the derived range-config timeout would exceed 550,000 us in exact
halving; with integer halving the two readings differ at odd remainders);
for every other budget it returns true and programs the timeout
registers. -/
theorem setMTB_accept_reject :
    (∀ (st : State) (b : Nat), b ≤ TimingGuard ∨ 1100000 < b - TimingGuard →
      (setMeasurementTimingBudget st b).1 = false
      ∧ (setMeasurementTimingBudget st b).2.2 = [])
    ∧ (∀ (st : State) (b : Nat), TimingGuard < b → b - TimingGuard ≤ 1100000 →
      (setMeasurementTimingBudget st b).1 = true
      ∧ (setMeasurementTimingBudget st b).2.2 ≠ []) := by
  constructor
  · intro st b hb
    by_cases h1 : b ≤ TimingGuard
    · simp [setMeasurementTimingBudget, h1]
    · have h2 : 1100000 < b - TimingGuard := by omega
      simp [setMeasurementTimingBudget, h1, h2]
  · intro st b h1 h2
    have h1' : ¬ (b ≤ TimingGuard) := by omega
    have h2' : ¬ (1100000 < b - TimingGuard) := by omega
    simp [setMeasurementTimingBudget, h1', h2', wr8, wr16]

/-- C4 witness: a concrete accepted budget (50,000 us) returns true, and
a concrete rejected budget (1,000 us, at most the guard) returns false
with no writes. -/
theorem setMTB_accept_reject_witness :
    TimingGuard < 50000 ∧ 50000 - TimingGuard ≤ 1100000
    ∧ (setMeasurementTimingBudget exState 50000).1 = true
    ∧ (setMeasurementTimingBudget exState 1000).1 = false
    ∧ (setMeasurementTimingBudget exState 1000).2.2 = [] :=
  ⟨by decide, by decide,
   (setMTB_accept_reject.2 exState 50000 (by decide) (by decide)).1,
   (setMTB_accept_reject.1 exState 1000 (Or.inl (by decide))).1,
   (setMTB_accept_reject.1 exState 1000 (Or.inl (by decide))).2⟩

/-- C6 counterexample: from a state whose timing budget reads back as
50,032 us, switching the distance mode to Short succeeds but the budget
read back afterwards is 49,888 us — the timeout encode/decode and the
microseconds/MCLKs conversions at the new macro period do not round-trip
exactly, so the previously configured timing budget is not preserved
exactly. -/
theorem setDistanceMode_budget_drift :
    getMeasurementTimingBudget exState = 50032
    ∧ (setDistanceMode DistanceMode.Short exState).1 = true
    ∧ getMeasurementTimingBudget (setDistanceMode DistanceMode.Short exState).2.1 = 49888
    ∧ (49888 : Nat) ≠ 50032 := by
  exact ⟨rfl, rfl, rfl, by decide⟩

/-- C6 amended: for every recognized distance mode, `setDistanceMode`
succeeds and reapplies the budget value that `getMeasurementTimingBudget`
returned immediately before the change: the channel-A range timeout
register afterwards holds exactly the encoding of that saved budget
(minus guard, halved, converted at the macro period of the mode's new
VCSEL period A).  The post-change `getMeasurementTimingBudget` readback
can differ from the saved value by conversion rounding (the
counterexample), so exact preservation of the readback does not hold. -/
theorem setDistanceMode_reapplies_saved_budget (st : State) (mode : DistanceMode)
    (hmode : mode = DistanceMode.Short ∨ mode = DistanceMode.Medium
      ∨ mode = DistanceMode.Long)
    (hb1 : TimingGuard < getMeasurementTimingBudget st)
    (hb2 : getMeasurementTimingBudget st - TimingGuard ≤ 1100000) :
    (setDistanceMode mode st).1 = true
    ∧ (setDistanceMode mode st).2.1.regs Reg.RANGE_CONFIG__TIMEOUT_MACROP_A
      = encodeTimeout (timeoutMicrosecondsToMclks
          ((getMeasurementTimingBudget st - TimingGuard) / 2)
          (calcMacroPeriod st.fast_osc_frequency (vcselPeriodA mode))) % 65536 := by
  have h1' : ¬ (getMeasurementTimingBudget st ≤ TimingGuard) := by omega
  have h2' : ¬ (1100000 < getMeasurementTimingBudget st - TimingGuard) := by omega
  rcases hmode with h | h | h <;> subst h <;>
    simp [setDistanceMode, distanceModeWrites, wrMany, wr8, wr16, setReg,
      setMeasurementTimingBudget, rd8, h1', h2', vcselPeriodA]

/-- C6 witness: the amended reapplication law at the concrete example
state, switching to Short: the channel-A range timeout register receives
413 = encodeTimeout 316. -/
theorem setDistanceMode_reapplies_saved_budget_witness :
    (DistanceMode.Short = DistanceMode.Short ∨ DistanceMode.Short = DistanceMode.Medium
      ∨ DistanceMode.Short = DistanceMode.Long)
    ∧ TimingGuard < getMeasurementTimingBudget exState
    ∧ getMeasurementTimingBudget exState - TimingGuard ≤ 1100000
    ∧ (setDistanceMode DistanceMode.Short exState).2.1.regs Reg.RANGE_CONFIG__TIMEOUT_MACROP_A
      = encodeTimeout (timeoutMicrosecondsToMclks
          ((getMeasurementTimingBudget exState - TimingGuard) / 2)
          (calcMacroPeriod exState.fast_osc_frequency (vcselPeriodA DistanceMode.Short))) % 65536 :=
  ⟨Or.inl rfl, by decide, by decide,
   (setDistanceMode_reapplies_saved_budget exState DistanceMode.Short
     (Or.inl rfl) (by decide) (by decide)).2⟩

/-- Applying 16-bit writes leaves the session's result buffer alone. -/
theorem applyWrites16_results (ws : Writes) :
    ∀ st : State, ((applyWrites16 st ws).1).results = st.results := by
  induction ws with
  | nil => intro st; rfl
  | cons p rest ih =>
    intro st
    simpa [applyWrites16, wr16] using ih _

/-- The calibration step leaves the session's result buffer alone. -/
theorem calibStep_results (st : State) :
    (calibStep st).1.results = st.results := by
  unfold calibStep
  split_ifs <;> rfl

/-- The DSS step leaves the session's result buffer alone. -/
theorem dssStep_results (st : State) :
    (dssStep st).1.results = st.results := by
  unfold dssStep
  rcases updateDSS TargetRate st.results with _ | ws
  · rfl
  · exact applyWrites16_results ws st

/-- C7 counterexample: on a concrete state whose data-ready bit reads 0
(no measurement data is ready) and which already has calibration done,
`read(blocking = false)` still runs the full read body: it returns the
decoded (stale) corrected range 1964 — not 0 — and performs register
writes (the DSS fallback write and the interrupt clear), because the
source's non-blocking path contains no data-ready check at all. -/
theorem read_nonblocking_not_ready_processes :
    dataReadyByte (rd8 exStateReady Reg.GPIO__TIO_HV_STATUS) = false
    ∧ read false [] exStateReady = some (readTail exStateReady)
    ∧ (readTail exStateReady).1 = 1964
    ∧ (1964 : Nat) ≠ 0
    ∧ (readTail exStateReady).2.2
        = [(Reg.DSS_CONFIG__MANUAL_EFFECTIVE_SPADS_SELECT, 0x8000),
           (Reg.SYSTEM__INTERRUPT_CLEAR, 0x01)] := by
  exact ⟨rfl, rfl, rfl, by decide, rfl⟩

/-- C7 amended: `read(blocking = false)` performs no data-ready check:
for every state — data ready or not — it unconditionally runs the read
body, returns the freshly decoded corrected range of whatever result
block the device presents, and always clears the interrupt (a register
write), so a non-blocking call with no data ready neither returns 0 in
general nor is free of side effects. -/
theorem read_nonblocking_unconditional (st : State) :
    read false [] st = some (readTail st)
    ∧ (readTail st).1 = (getRangingData (parseResults st.device_block)).range_mm
    ∧ (Reg.SYSTEM__INTERRUPT_CLEAR, 0x01) ∈ (readTail st).2.2 := by
  refine ⟨rfl, ?_, ?_⟩
  · show (getRangingData ((dssStep (calibStep (readResults st)).1).1).results).range_mm = _
    rw [dssStep_results, calibStep_results]
    rfl
  · show _ ∈ (calibStep (readResults st)).2 ++ (dssStep (calibStep (readResults st)).1).2
        ++ [(Reg.SYSTEM__INTERRUPT_CLEAR, 0x01 % 256)]
    simp

/-- The post-boot initialization tail always reports the success code 0
(no later step can change the returned result). -/
theorem initTail_fst (st : State) (io_2v8 : Bool) :
    (initTail st io_2v8).1 = some 0 := rfl

/-- C3 counterexample: when the model-ID register read returns 0 — a
value different from the expected 0xEACC — `init` returns the raw read
value 0, which is exactly the success result: the model-ID mismatch is
not distinguishable from success in this case. -/
theorem init_modelid_zero_collides_with_success :
    rd16 exStateId0 Reg.IDENTIFICATION__MODEL_ID = 0
    ∧ (0 : Nat) ≠ 0xEACC
    ∧ (init exStateId0 [] true).1 = some 0 := by
  exact ⟨rfl, by decide, rfl⟩

/-- C3 amended: `init` returns the success result 0 exactly when either
the model-ID read matched 0xEACC and the boot poll completed without
timeout (every initialization step then runs), or the model-ID read
returned 0 — a mismatching read is returned verbatim, so the value 0
collides with success.  Consequently, for every model-ID read value
other than 0xEACC and other than 0, the result is distinguishable from
success. -/
theorem init_success_characterization (st : State)
    (trace : List (Nat × Nat × Bool)) (io_2v8 : Bool) :
    ((init st trace io_2v8).1 = some 0 ↔
      (rd16 st Reg.IDENTIFICATION__MODEL_ID = 0
        ∨ (rd16 st Reg.IDENTIFICATION__MODEL_ID = 0xEACC
            ∧ bootPoll trace = some true)))
    ∧ (rd16 st Reg.IDENTIFICATION__MODEL_ID ≠ 0xEACC →
        rd16 st Reg.IDENTIFICATION__MODEL_ID ≠ 0 →
        (init st trace io_2v8).1 ≠ some 0) := by
  by_cases hm : rd16 st Reg.IDENTIFICATION__MODEL_ID = 0xEACC
  · rcases hbp : bootPoll trace with _ | b
    · constructor
      · simp [init, hm, hbp]
      · intro h1; exact absurd hm h1
    · cases b
      · constructor
        · simp [init, hm, hbp]
        · intro h1; exact absurd hm h1
      · constructor
        · simp only [init, hm, hbp, ne_eq, not_true_eq_false, if_false, initTail_fst]
          simp [hbp]
        · intro h1; exact absurd hm h1
  · have hinit : (init st trace io_2v8).1
        = some (rd16 st Reg.IDENTIFICATION__MODEL_ID) := by
      simp [init, hm]
    rw [hinit]
    constructor
    · simp [hm]
    · intro h1 h2
      simp [h2]

/-- C3 witness: at a state whose model-ID register reads 5 (neither the
expected 0xEACC nor the colliding 0), `init` does not return success. -/
theorem init_success_characterization_witness :
    rd16 exStateId5 Reg.IDENTIFICATION__MODEL_ID ≠ 0xEACC
    ∧ rd16 exStateId5 Reg.IDENTIFICATION__MODEL_ID ≠ 0
    ∧ (init exStateId5 [] true).1 ≠ some 0 :=
  ⟨by decide, by decide,
   (init_success_characterization exStateId5 [] true).2 (by decide) (by decide)⟩

end VL53L1X
